import Mathlib

/-!
Verification of the Posture-Checker session-analytics logic.

The executable core of the repository is:
* `Index.tsx` / `handlePostureUpdate`: a rolling buffer of posture readings,
  `setPostureData(prev => [...prev.slice(-49), data])`;
* `StatsPanel.tsx`: the `useMemo` block computing totals, per-status counts,
  average confidence, current/longest streak and the improvement (trend) value;
* `VideoCapture.tsx` / `analyzePosture`: the mock classifier producing a
  `PostureData` reading from an activity and random draws.

JavaScript numbers are modelled by `Rat` (exact rational arithmetic); the one
reachable floating-point anomaly, `0/0 = NaN` in the improvement computation,
is modelled by `Option Rat` with `none` standing for NaN.  Division of a
nonzero numerator by zero (JS Infinity) is unreachable here because every
numerator is a count over the list whose length is the denominator.
-/

/-- `ActivityType` from `Index.tsx`: `'squat' | 'desk-sitting'`. -/
inductive ActivityType
  | squat
  | deskSitting
deriving DecidableEq, BEq

/-- `PostureStatus` from `Index.tsx`: `'good' | 'warning' | 'bad' | 'neutral'`. -/
inductive PostureStatus
  | good
  | warning
  | bad
  | neutral
deriving DecidableEq, BEq

/-- `PostureData` from `Index.tsx` (the optional `keyPoints` field carries no
data in the analytics path and is omitted). -/
structure PostureData where
  timestamp : Int
  status : PostureStatus
  warnings : List String
  confidence : Rat
deriving DecidableEq

/-- Predicate used throughout `StatsPanel.tsx`: `d.status === 'good'`. -/
def isGood (d : PostureData) : Bool :=
  d.status = PostureStatus.good

/-- `postureData.filter(d => d.status === s).length` from `StatsPanel.tsx`. -/
def countStatus (s : PostureStatus) (l : List PostureData) : Nat :=
  (l.filter fun d => d.status = s).length

/-- The backward loop of `StatsPanel.tsx` (lines 34-42): walk from the most
recent reading backward counting consecutive `good` entries; equivalently the
length of the longest `good` prefix of the reversed list. -/
def currentStreakOf (l : List PostureData) : Nat :=
  (l.reverse.takeWhile isGood).length

/-- One step of the `forEach` loop of `StatsPanel.tsx` (lines 44-54); the state
is `(longestStreak, tempStreak)`. -/
def streakStep (p : Nat × Nat) (d : PostureData) : Nat × Nat :=
  if isGood d then (max p.1 (p.2 + 1), p.2 + 1) else (p.1, 0)

/-- The `forEach` loop of `StatsPanel.tsx` computing `longestStreak`. -/
def longestStreakOf (l : List PostureData) : Nat :=
  (l.foldl streakStep (0, 0)).1

/-- `half.filter(d => d.status === 'good').length / half.length` from
`StatsPanel.tsx` (lines 61-62).  When `half` is empty JavaScript computes
`0/0 = NaN`, modelled as `none`; the numerator is a count over `half`, so a
zero denominator forces a zero numerator and NaN is the only reachable
anomaly. -/
def goodRate (half : List PostureData) : Option Rat :=
  if half.length = 0 then none
  else some ((countStatus PostureStatus.good half : Rat) / (half.length : Rat))

/-- The improvement computation of `StatsPanel.tsx` (lines 56-63):
`halfPoint = Math.floor(total / 2)`, halves by `slice`, and
`(secondHalfGood - firstHalfGood) * 100`.  NaN propagates through the
arithmetic, hence the `Option` plumbing. -/
def improvementOf (l : List PostureData) : Option Rat :=
  (goodRate (l.take (l.length / 2))).bind fun a =>
    (goodRate (l.drop (l.length / 2))).map fun b => (b - a) * 100

/-- The stats record returned by the `useMemo` block of `StatsPanel.tsx`. -/
structure SessionStats where
  totalReadings : Nat
  goodPosture : Nat
  warningPosture : Nat
  badPosture : Nat
  averageConfidence : Rat
  currentStreak : Nat
  longestStreak : Nat
  improvement : Option Rat
deriving DecidableEq

/-- The `useMemo` block of `StatsPanel.tsx` (lines 13-75), including the
early return of all-zero stats for an empty buffer. -/
def computeStats (postureData : List PostureData) : SessionStats :=
  if postureData.length = 0 then
    { totalReadings := 0
      goodPosture := 0
      warningPosture := 0
      badPosture := 0
      averageConfidence := 0
      currentStreak := 0
      longestStreak := 0
      improvement := some 0 }
  else
    { totalReadings := postureData.length
      goodPosture := countStatus PostureStatus.good postureData
      warningPosture := countStatus PostureStatus.warning postureData
      badPosture := countStatus PostureStatus.bad postureData
      averageConfidence :=
        (postureData.foldl (fun sum d => sum + d.confidence) 0) / (postureData.length : Rat)
      currentStreak := currentStreakOf postureData
      longestStreak := longestStreakOf postureData
      improvement := improvementOf postureData }

/-- `handlePostureUpdate` from `Index.tsx` (lines 29-32):
`[...prev.slice(-49), data]`.  `slice(-49)` keeps the last
`min(49, length)` elements, i.e. drops the first `length - 49`. -/
def handlePostureUpdate (prev : List PostureData) (data : PostureData) : List PostureData :=
  prev.drop (prev.length - 49) ++ [data]

/-- Feeding a sequence of readings one at a time into `handlePostureUpdate`
starting from the empty buffer. -/
def pushAll (events : List PostureData) : List PostureData :=
  events.foldl handlePostureUpdate []

/-- The status assignment of the mock classifier `analyzePosture` in
`VideoCapture.tsx` (lines 19-42), as a function of the random draw
`random = Math.random()`. -/
def analyzeStatus (activity : ActivityType) (random : Rat) : PostureStatus :=
  match activity with
  | ActivityType.squat =>
      if random < 3/10 then PostureStatus.bad
      else if random < 1/2 then PostureStatus.warning
      else PostureStatus.good
  | ActivityType.deskSitting =>
      if random < 1/5 then PostureStatus.bad
      else if random < 2/5 then PostureStatus.warning
      else PostureStatus.good

/-- The warning list of `analyzePosture`, assigned alongside the status. -/
def analyzeWarnings (activity : ActivityType) (random : Rat) : List String :=
  match activity with
  | ActivityType.squat =>
      if random < 3/10 then ["Knee extends beyond toe"]
      else if random < 1/2 then ["Back angle could be improved"]
      else []
  | ActivityType.deskSitting =>
      if random < 1/5 then ["Neck angle > 30 deg"]
      else if random < 2/5 then ["Back not straight"]
      else []

/-- `analyzePosture` from `VideoCapture.tsx` (lines 19-51).  `Math.random()`
is called twice: `r1` drives the status/warnings, `r2` the confidence
`Math.random() * 0.3 + 0.7`; `now` is `Date.now()`. -/
def analyzePosture (activity : ActivityType) (now : Int) (r1 r2 : Rat) : PostureData :=
  { timestamp := now
    status := analyzeStatus activity r1
    warnings := analyzeWarnings activity r1
    confidence := r2 * (3/10) + 7/10 }

/-- A concrete reading used in counterexamples and witnesses. -/
def mkEvent (t : Int) (s : PostureStatus) : PostureData :=
  { timestamp := t, status := s, warnings := [], confidence := 9/10 }

/-- Spec-side trend formula, written from the specification text: split the
buffer at `floor(total/2)`, take the fraction of `good` events within each
half, and report `(secondHalfGoodRate - firstHalfGoodRate) * 100`. -/
def specTrend (l : List PostureData) : Rat :=
  ((countStatus PostureStatus.good (l.drop (l.length / 2)) : Rat)
        / ((l.drop (l.length / 2)).length : Rat)
      - (countStatus PostureStatus.good (l.take (l.length / 2)) : Rat)
        / ((l.take (l.length / 2)).length : Rat)) * 100

/-! ### Helper lemmas: projections of `computeStats` -/

/-- The early return only changes the improvement field; the current streak
is `currentStreakOf` on every buffer. -/
theorem computeStats_currentStreak (l : List PostureData) :
    (computeStats l).currentStreak = currentStreakOf l := by
  by_cases h : l.length = 0
  · rw [List.length_eq_zero] at h
    subst h
    rfl
  · simp [computeStats, h]

theorem computeStats_longestStreak (l : List PostureData) :
    (computeStats l).longestStreak = longestStreakOf l := by
  by_cases h : l.length = 0
  · rw [List.length_eq_zero] at h
    subst h
    rfl
  · simp [computeStats, h]

theorem computeStats_totalReadings (l : List PostureData) :
    (computeStats l).totalReadings = l.length := by
  by_cases h : l.length = 0
  · simp [computeStats, h]
  · simp [computeStats, h]

theorem computeStats_improvement (l : List PostureData) (h : l.length ≠ 0) :
    (computeStats l).improvement = improvementOf l := by
  simp [computeStats, h]

/-! ### Helper lemmas: streaks -/

/-- Every element kept by `takeWhile` satisfies the predicate. -/
theorem takeWhile_all {α : Type} (p : α → Bool) (l : List α) :
    (l.takeWhile p).all p = true := by
  rw [List.all_eq_true]
  intro x hx
  exact List.mem_takeWhile_imp hx

/-- `takeWhile` keeps a longest all-`p` prefix: any all-`p` prefix is no
longer than it. -/
theorem takeWhile_maximal {α : Type} (p : α → Bool) :
    ∀ (t l : List α), t <+: l → t.all p = true → t.length ≤ (l.takeWhile p).length := by
  intro t
  induction t with
  | nil =>
    intro l _ _
    exact Nat.zero_le _
  | cons a t ih =>
    intro l hpre hall
    obtain ⟨u, hu⟩ := hpre
    subst hu
    simp only [List.all_cons, Bool.and_eq_true] at hall
    rw [List.cons_append, List.takeWhile_cons, if_pos hall.1]
    simpa using ih (t ++ u) (List.prefix_append t u) hall.2

/-- The backward scan finds an all-`good` suffix of its exact length. -/
theorem currentStreak_achieves (l : List PostureData) :
    ∃ s, s <:+ l ∧ s.all isGood = true ∧ s.length = currentStreakOf l := by
  refine ⟨(l.reverse.takeWhile isGood).reverse, ?_, ?_, ?_⟩
  · have h : (l.reverse.takeWhile isGood).reverse <:+ l.reverse.reverse :=
      List.reverse_suffix.mpr (List.takeWhile_prefix isGood)
    simpa using h
  · rw [List.all_reverse]
    exact takeWhile_all isGood l.reverse
  · simp [currentStreakOf]

/-- The backward scan is maximal: no all-`good` suffix is longer. -/
theorem currentStreak_maximal {t l : List PostureData} (h : t <:+ l)
    (ha : t.all isGood = true) : t.length ≤ currentStreakOf l := by
  have hp : t.reverse <+: l.reverse := List.reverse_prefix.mpr h
  have := takeWhile_maximal isGood t.reverse l.reverse hp (by simpa using ha)
  simpa [currentStreakOf] using this

/-- Recurrence of the backward scan under appending a reading. -/
theorem currentStreakOf_snoc (l : List PostureData) (d : PostureData) :
    currentStreakOf (l ++ [d]) = if isGood d then currentStreakOf l + 1 else 0 := by
  simp only [currentStreakOf, List.reverse_append, List.reverse_cons, List.reverse_nil,
    List.nil_append, List.cons_append, List.takeWhile_cons]
  split
  · simp
  · simp

/-- The second fold component tracks the streak ending at the processed end. -/
theorem foldl_streak_snd (l : List PostureData) :
    (l.foldl streakStep (0, 0)).2 = currentStreakOf l := by
  induction l using List.reverseRecOn with
  | nil => rfl
  | append_singleton l d ih =>
    rw [List.foldl_append, currentStreakOf_snoc]
    simp only [List.foldl_cons, List.foldl_nil, streakStep]
    split
    · omega
    · rfl

/-- The tracked maximum dominates the running streak at every step. -/
theorem foldl_streak_snd_le_fst (l : List PostureData) :
    (l.foldl streakStep (0, 0)).2 ≤ (l.foldl streakStep (0, 0)).1 := by
  induction l using List.reverseRecOn with
  | nil => exact Nat.le_refl 0
  | append_singleton l d ih =>
    rw [List.foldl_append]
    simp only [List.foldl_cons, List.foldl_nil, streakStep]
    split
    · exact Nat.le_max_right _ _
    · exact Nat.zero_le _

/-- The tracked maximum never decreases when a reading is appended. -/
theorem longestStreakOf_le_snoc (l : List PostureData) (d : PostureData) :
    longestStreakOf l ≤ longestStreakOf (l ++ [d]) := by
  simp only [longestStreakOf, List.foldl_append, List.foldl_cons, List.foldl_nil, streakStep]
  split
  · exact Nat.le_max_left _ _
  · exact Nat.le_refl _

/-- C8: a freshly constructed aggregator (the empty buffer) yields the all-zero
snapshot: total, every per-category count, average confidence, both streaks and
the trend are all `0`; the query is a total function, not an error. -/
theorem empty_snapshot_defaults :
    computeStats [] =
      { totalReadings := 0
        goodPosture := 0
        warningPosture := 0
        badPosture := 0
        averageConfidence := 0
        currentStreak := 0
        longestStreak := 0
        improvement := some 0 } := rfl

/-- C1: on a one-event buffer the first half of the trend split is empty and
the code computes `0/0 = NaN` (modelled `none`) for the trend, not the `0` the
spec prescribes for an empty half. -/
theorem trend_single_event_nan :
    (computeStats [mkEvent 0 PostureStatus.good]).improvement = none ∧
      (computeStats [mkEvent 0 PostureStatus.good]).improvement ≠ some 0 := by
  decide

/-- C2 counterexample: on a buffer holding one `neutral` reading the three
per-category counts that the snapshot actually carries (good, warning, bad)
sum to `0`, not to the total `1`: the snapshot has no neutral count. -/
theorem count_sum_neutral_counterexample :
    (computeStats [mkEvent 0 PostureStatus.neutral]).goodPosture
        + (computeStats [mkEvent 0 PostureStatus.neutral]).warningPosture
        + (computeStats [mkEvent 0 PostureStatus.neutral]).badPosture
      ≠ (computeStats [mkEvent 0 PostureStatus.neutral]).totalReadings := by
  decide

/-- Splitting an infix of `l ++ [d]`: it lies inside `l`, or it reaches the
end and is a suffix of `l ++ [d]`. -/
theorem infix_snoc_cases {α : Type} {t l : List α} {d : α}
    (h : t <:+: l ++ [d]) : t <:+: l ∨ t <:+ l ++ [d] := by
  obtain ⟨s, u, hsu⟩ := h
  rcases List.eq_nil_or_concat' u with rfl | ⟨u', e, rfl⟩
  · right
    exact ⟨s, by simpa using hsu⟩
  · left
    have h3 : (s ++ t ++ u') ++ [e] = l ++ [d] := by
      rw [← hsu]
      simp
    have h4 := List.append_inj' h3 rfl
    exact ⟨s, u', h4.1⟩

/-- Recurrence of the `forEach` maximum under appending a reading. -/
theorem longestStreakOf_snoc (l : List PostureData) (d : PostureData) :
    longestStreakOf (l ++ [d]) =
      if isGood d
      then max (longestStreakOf l) (currentStreakOf l + 1)
      else longestStreakOf l := by
  simp only [longestStreakOf, List.foldl_append, List.foldl_cons, List.foldl_nil, streakStep,
    foldl_streak_snd]
  split
  · rfl
  · rfl

/-- The `forEach` loop attains its output on an all-`good` infix. -/
theorem longestStreak_achieves (l : List PostureData) :
    ∃ t, t <:+: l ∧ t.all isGood = true ∧ t.length = longestStreakOf l := by
  induction l using List.reverseRecOn with
  | nil => exact ⟨[], List.infix_rfl, rfl, rfl⟩
  | append_singleton l d ih =>
    rw [longestStreakOf_snoc]
    by_cases hd : isGood d = true
    · rw [if_pos hd]
      rcases Nat.le_total (currentStreakOf l + 1) (longestStreakOf l) with hle | hge
      · rw [Nat.max_eq_left hle]
        obtain ⟨t, ht, ha, hlen⟩ := ih
        exact ⟨t, ht.trans (List.prefix_append l [d]).isInfix, ha, hlen⟩
      · rw [Nat.max_eq_right hge]
        obtain ⟨s, hs, ha, hlen⟩ := currentStreak_achieves (l ++ [d])
        refine ⟨s, hs.isInfix, ha, ?_⟩
        rw [hlen, currentStreakOf_snoc, if_pos hd]
    · rw [if_neg hd]
      obtain ⟨t, ht, ha, hlen⟩ := ih
      exact ⟨t, ht.trans (List.prefix_append l [d]).isInfix, ha, hlen⟩

/-- The `forEach` loop dominates every all-`good` infix. -/
theorem longestStreak_bound (l : List PostureData) :
    ∀ t, t <:+: l → t.all isGood = true → t.length ≤ longestStreakOf l := by
  induction l using List.reverseRecOn with
  | nil =>
    intro t ht _
    rw [List.infix_nil] at ht
    subst ht
    exact Nat.le_refl 0
  | append_singleton l d ih =>
    intro t ht ha
    rcases infix_snoc_cases ht with hinf | hsuf
    · exact (ih t hinf ha).trans (longestStreakOf_le_snoc l d)
    · have h1 : t.length ≤ currentStreakOf (l ++ [d]) := currentStreak_maximal hsuf ha
      have h2 : currentStreakOf (l ++ [d]) ≤ longestStreakOf (l ++ [d]) := by
        rw [← foldl_streak_snd]
        exact foldl_streak_snd_le_fst (l ++ [d])
      exact h1.trans h2

/-- The four status categories partition every buffer. -/
theorem count_partition (l : List PostureData) :
    countStatus PostureStatus.good l + countStatus PostureStatus.warning l
      + countStatus PostureStatus.bad l + countStatus PostureStatus.neutral l = l.length := by
  induction l with
  | nil => rfl
  | cons d t ih =>
    simp only [countStatus, List.filter_cons] at ih ⊢
    cases hs : d.status <;> simp [hs] <;> omega

/-- Closed form of the rolling buffer: feeding any event sequence through
`handlePostureUpdate` keeps exactly the last 50 events. -/
theorem pushAll_eq_drop (events : List PostureData) :
    pushAll events = events.drop (events.length - 50) := by
  induction events using List.reverseRecOn with
  | nil => rfl
  | append_singleton es d ih =>
    have hstep : pushAll (es ++ [d]) = handlePostureUpdate (pushAll es) d := by
      simp [pushAll, List.foldl_append]
    rw [hstep, ih, handlePostureUpdate, List.length_drop]
    rcases Nat.lt_or_ge es.length 50 with h | h
    · have h1 : es.length - 50 = 0 := by omega
      rw [h1, List.drop_zero]
      have h2 : es.length - 0 - 49 = 0 := by omega
      rw [h2, List.drop_zero]
      have h3 : (es ++ [d]).length - 50 = 0 := by
        rw [List.length_append]
        simp only [List.length_cons, List.length_nil]
        omega
      rw [h3, List.drop_zero]
    · have h1 : es.length - (es.length - 50) - 49 = 1 := by omega
      rw [h1, List.drop_drop]
      have h2 : (es ++ [d]).length - 50 = es.length - 49 := by
        rw [List.length_append]
        simp only [List.length_cons, List.length_nil]
        omega
      rw [h2]
      have h3 : es.length - 50 + 1 = es.length - 49 := by omega
      rw [h3]
      rw [List.drop_append_of_le_length (by omega)]

/-- C2 amended: the snapshot carries counts only for good, warning and bad;
their sum plus the number of neutral readings in the buffer equals the total,
so the three snapshot counts sum to the total exactly when the buffer holds no
neutral reading. -/
theorem count_conservation_amended (l : List PostureData) :
    (computeStats l).goodPosture + (computeStats l).warningPosture
        + (computeStats l).badPosture + countStatus PostureStatus.neutral l
      = (computeStats l).totalReadings := by
  by_cases h : l.length = 0
  · rw [List.length_eq_zero] at h
    subst h
    rfl
  · simp only [computeStats, if_neg h]
    exact count_partition l

/-- C3: after more than 50 pushes starting from the empty buffer, the buffer
holds exactly 50 events, namely the last 50 pushed ones in their original
relative order (FIFO eviction of the oldest). -/
theorem window_bound (events : List PostureData) (h : 50 < events.length) :
    (pushAll events).length = 50 ∧
      pushAll events = events.drop (events.length - 50) := by
  refine ⟨?_, pushAll_eq_drop events⟩
  rw [pushAll_eq_drop, List.length_drop]
  omega

/-- C3 witness: pushing 51 concrete readings leaves exactly the last 50. -/
theorem window_bound_witness :
    50 < (List.replicate 51 (mkEvent 0 PostureStatus.good)).length ∧
      ((pushAll (List.replicate 51 (mkEvent 0 PostureStatus.good))).length = 50 ∧
        pushAll (List.replicate 51 (mkEvent 0 PostureStatus.good))
          = (List.replicate 51 (mkEvent 0 PostureStatus.good)).drop
              ((List.replicate 51 (mkEvent 0 PostureStatus.good)).length - 50)) :=
  ⟨by simp, window_bound (List.replicate 51 (mkEvent 0 PostureStatus.good)) (by simp)⟩

/-- C4: whenever both halves of the split are non-empty (total at least 2),
the improvement value of the code equals the trend formula of the spec:
`(secondHalfGoodRate - firstHalfGoodRate) * 100` with split point
`floor(total/2)`, the first half being the shorter one for odd totals. -/
theorem trend_matches_spec (l : List PostureData) (h : 2 ≤ l.length) :
    (computeStats l).improvement = some (specTrend l) := by
  have hne : l.length ≠ 0 := by omega
  have h1 : ¬(l.take (l.length / 2)).length = 0 := by
    rw [List.length_take]
    omega
  have h2 : ¬(l.drop (l.length / 2)).length = 0 := by
    rw [List.length_drop]
    omega
  rw [computeStats_improvement l hne]
  simp only [improvementOf, goodRate, if_neg h1, if_neg h2, Option.some_bind, Option.map_some']
  rfl

/-- C4 witness: the literal example of the spec, categories
`[bad, bad, good, good, good]`, yields trend `100`. -/
theorem trend_matches_spec_witness :
    2 ≤ ([mkEvent 0 PostureStatus.bad, mkEvent 1 PostureStatus.bad,
          mkEvent 2 PostureStatus.good, mkEvent 3 PostureStatus.good,
          mkEvent 4 PostureStatus.good] : List PostureData).length ∧
      (computeStats [mkEvent 0 PostureStatus.bad, mkEvent 1 PostureStatus.bad,
          mkEvent 2 PostureStatus.good, mkEvent 3 PostureStatus.good,
          mkEvent 4 PostureStatus.good]).improvement = some 100 := by
  constructor
  · decide
  · rw [trend_matches_spec _ (by decide)]
    norm_num [specTrend, countStatus, mkEvent]
    decide

/-- C5: the current streak is the length of the maximal all-`good` suffix of
the buffer: such a suffix of exactly that length exists, no all-`good` suffix
is longer, and the streak is 0 whenever the most recent reading is not `good`
(and on the empty buffer). -/
theorem current_streak_is_maximal_good_suffix (l : List PostureData) :
    (∃ s, s <:+ l ∧ s.all isGood = true ∧ s.length = (computeStats l).currentStreak)
      ∧ (∀ t, t <:+ l → t.all isGood = true → t.length ≤ (computeStats l).currentStreak)
      ∧ (∀ d, l.getLast? = some d → isGood d = false → (computeStats l).currentStreak = 0)
      ∧ (computeStats ([] : List PostureData)).currentStreak = 0 := by
  rw [computeStats_currentStreak]
  refine ⟨currentStreak_achieves l, fun t ht ha => currentStreak_maximal ht ha, ?_, rfl⟩
  intro d hd hbad
  rw [← List.head?_reverse] at hd
  rcases hr : l.reverse with _ | ⟨x, tail⟩
  · rw [hr] at hd
    simp at hd
  · rw [hr] at hd
    simp only [List.head?_cons, Option.some.injEq] at hd
    subst hd
    rw [currentStreakOf, hr, List.takeWhile_cons, if_neg (by simp [hbad])]
    rfl

/-- C6: the longest streak is the maximum run-length of consecutive `good`
readings anywhere in the buffer (an all-`good` infix of that length exists and
none is longer); on the literal example with categories
`[good, good, warning, good, good, good]` both the current and the longest
streak equal 3. -/
theorem longest_streak_is_max_good_run :
    (∀ l : List PostureData,
        (∃ t, t <:+: l ∧ t.all isGood = true ∧ t.length = (computeStats l).longestStreak)
          ∧ ∀ t, t <:+: l → t.all isGood = true → t.length ≤ (computeStats l).longestStreak)
      ∧ (computeStats [mkEvent 0 PostureStatus.good, mkEvent 1 PostureStatus.good,
            mkEvent 2 PostureStatus.warning, mkEvent 3 PostureStatus.good,
            mkEvent 4 PostureStatus.good, mkEvent 5 PostureStatus.good]).currentStreak = 3
      ∧ (computeStats [mkEvent 0 PostureStatus.good, mkEvent 1 PostureStatus.good,
            mkEvent 2 PostureStatus.warning, mkEvent 3 PostureStatus.good,
            mkEvent 4 PostureStatus.good, mkEvent 5 PostureStatus.good]).longestStreak = 3 := by
  refine ⟨fun l => ?_, by decide, by decide⟩
  rw [computeStats_longestStreak]
  exact ⟨longestStreak_achieves l, fun t ht ha => longestStreak_bound l t ht ha⟩

/-- C7: on every buffer the snapshot satisfies
`0 <= currentStreak <= longestStreak <= total`. -/
theorem streak_bounds (l : List PostureData) :
    0 ≤ (computeStats l).currentStreak ∧
      (computeStats l).currentStreak ≤ (computeStats l).longestStreak ∧
      (computeStats l).longestStreak ≤ (computeStats l).totalReadings := by
  rw [computeStats_currentStreak, computeStats_longestStreak, computeStats_totalReadings]
  refine ⟨Nat.zero_le _, ?_, ?_⟩
  · rw [← foldl_streak_snd]
    exact foldl_streak_snd_le_fst l
  · obtain ⟨t, ht, _, hlen⟩ := longestStreak_achieves l
    rw [← hlen]
    exact ht.length_le

/-- C9: for every activity and every random draw in `[0,1)` the mock
classifier returns a status among good, warning and bad, never `neutral`. -/
theorem analyze_status_never_neutral (a : ActivityType) (now : Int) (r1 r2 : Rat)
    (_h0 : 0 ≤ r1) (_h1 : r1 < 1) :
    ((analyzePosture a now r1 r2).status = PostureStatus.good
        ∨ (analyzePosture a now r1 r2).status = PostureStatus.warning
        ∨ (analyzePosture a now r1 r2).status = PostureStatus.bad)
      ∧ (analyzePosture a now r1 r2).status ≠ PostureStatus.neutral := by
  have hs : (analyzePosture a now r1 r2).status = analyzeStatus a r1 := rfl
  rw [hs]
  cases a <;> simp only [analyzeStatus] <;> split_ifs <;> simp

/-- C9 witness: a squat reading at draw 1/2 is classified `warning`, in the
allowed set and not `neutral`. -/
theorem analyze_status_never_neutral_witness :
    (0 : Rat) ≤ 1/2 ∧ (1/2 : Rat) < 1 ∧
      (((analyzePosture ActivityType.squat 0 (1/2) (1/2)).status = PostureStatus.good
          ∨ (analyzePosture ActivityType.squat 0 (1/2) (1/2)).status = PostureStatus.warning
          ∨ (analyzePosture ActivityType.squat 0 (1/2) (1/2)).status = PostureStatus.bad)
        ∧ (analyzePosture ActivityType.squat 0 (1/2) (1/2)).status ≠ PostureStatus.neutral) :=
  ⟨by norm_num, by norm_num,
    analyze_status_never_neutral ActivityType.squat 0 (1/2) (1/2) (by norm_num) (by norm_num)⟩

/-- C10: for every activity and random draws, the confidence produced by the
mock classifier is exactly `r2 * 0.3 + 0.7`, hence lies in `[0.7, 1)` and in
particular inside the data-model range `[0, 1]` with no clamping needed. -/
theorem analyze_confidence_range (a : ActivityType) (now : Int) (r1 r2 : Rat)
    (h0 : 0 ≤ r2) (h1 : r2 < 1) :
    (analyzePosture a now r1 r2).confidence = r2 * (3/10) + 7/10
      ∧ 7/10 ≤ (analyzePosture a now r1 r2).confidence
      ∧ (analyzePosture a now r1 r2).confidence < 1
      ∧ 0 ≤ (analyzePosture a now r1 r2).confidence
      ∧ (analyzePosture a now r1 r2).confidence ≤ 1 := by
  have hc : (analyzePosture a now r1 r2).confidence = r2 * (3/10) + 7/10 := rfl
  refine ⟨hc, ?_, ?_, ?_, ?_⟩ <;> rw [hc] <;> linarith

/-- C10 witness: at draw 1/2 the confidence is 17/20, inside `[0.7, 1)`. -/
theorem analyze_confidence_range_witness :
    (0 : Rat) ≤ 1/2 ∧ (1/2 : Rat) < 1 ∧
      ((analyzePosture ActivityType.squat 0 0 (1/2)).confidence = (1/2) * (3/10) + 7/10
        ∧ 7/10 ≤ (analyzePosture ActivityType.squat 0 0 (1/2)).confidence
        ∧ (analyzePosture ActivityType.squat 0 0 (1/2)).confidence < 1
        ∧ 0 ≤ (analyzePosture ActivityType.squat 0 0 (1/2)).confidence
        ∧ (analyzePosture ActivityType.squat 0 0 (1/2)).confidence ≤ 1) :=
  ⟨by norm_num, by norm_num,
    analyze_confidence_range ActivityType.squat 0 0 (1/2) (by norm_num) (by norm_num)⟩
